import Mathlib

/-!
Verification of the irrigation-auditor water-balance pipeline.

Shallow embedding of the two scripts `irrigation_app.py` and
`irrigation_engine.py`: the weather fetch with retry/backoff and data
cleaning (`get_weather_data_safe`), the columnar water-balance
computation of the "Run Irrigation Audit" block, and the reference-day
summary (pump-time split and status classification).  Floating-point
values are modelled as exact rationals; a pandas division by zero, which
silently yields a non-finite float, is modelled as `none`.
-/

/-- Python `int(x)` applied to a float: truncation toward zero. -/
def pyInt (x : ℚ) : ℤ := if 0 ≤ x then ⌊x⌋ else ⌈x⌉

/-- Python `x % 1` for a float `x`: the result has the divisor's sign, so
this is `x - ⌊x⌋`. -/
def pyMod1 (x : ℚ) : ℚ := x - ⌊x⌋

/-- pandas division of a float column entry by a scalar: a zero divisor
silently yields a non-finite float (`inf` or `nan`), modelled as `none`;
no exception is raised. -/
def pandasDiv (x d : ℚ) : Option ℚ := if d = 0 then none else some (x / d)

/-! ### Water-balance columns

`irrigation_app.py`, Run Irrigation Audit block:
`df['Crop_Water_Need'] = df['ETo'] * float(kc)`;
`df['Irrigation_Req'] = (df['Crop_Water_Need'] - df['Rain']).clip(lower=0)`;
`total_liters = df['Irrigation_Req'] * 4046.86 * float(field_size)`;
`df['Pump_Hours'] = total_liters / (int(pump_capacity) * 60)`. -/

/-- One entry of the `Crop_Water_Need` column: `eto * kc`. -/
def dayCropNeed (kc eto : ℚ) : ℚ := eto * kc

/-- One entry of the `Irrigation_Req` column: `(crop - rain).clip(lower=0)`. -/
def dayIrrigation (crop rain : ℚ) : ℚ := max 0 (crop - rain)

/-- One entry of the `total_liters` column: `irr * 4046.86 * field_size`. -/
def dayLiters (fs x : ℚ) : ℚ := x * (404686 / 100) * fs

/-- The `Crop_Water_Need` column. -/
def cropWaterNeed (kc : ℚ) (etos : List ℚ) : List ℚ := etos.map (dayCropNeed kc)

/-- The `Irrigation_Req` column (pandas aligns the two columns index-wise). -/
def irrigationReq (crop rains : List ℚ) : List ℚ := List.zipWith dayIrrigation crop rains

/-- The `total_liters` column. -/
def totalLiters (fs : ℚ) (irr : List ℚ) : List ℚ := irr.map (dayLiters fs)

/-- The `Pump_Hours` column: `total_liters / (int(pump_capacity) * 60)`. -/
def pumpHoursCol (pc : ℚ) (liters : List ℚ) : List (Option ℚ) :=
  liters.map (fun x => pandasDiv x ((pyInt pc : ℚ) * 60))

/-! ### Data cleaning

`irrigation_app.py` line 109-110:
`df['ETo'] = pd.to_numeric(df['ETo'], errors='coerce').interpolate().fillna(3.5)`;
`df['Rain'] = pd.to_numeric(df['Rain'], errors='coerce').fillna(0.0)`.
A raw entry is `Option ℚ` (`none` is a NaN/null).  pandas
`interpolate()` with its defaults (`method='linear'`,
`limit_direction='forward'`) fills an interior gap by linear
interpolation between the nearest known values on each side, fills a gap
after the last known value with that last known value, and leaves a gap
before the first known value unfilled; `fillna(3.5)` then sets the still
missing entries to 3.5. -/

/-- Index and value of the nearest known entry strictly before `i`. -/
def findPrev (xs : List (Option ℚ)) : ℕ → Option (ℕ × ℚ)
  | 0 => none
  | i + 1 =>
    match xs[i]? with
    | some (some v) => some (i, v)
    | _ => findPrev xs i

/-- Scan forward from `k` for a known entry, with explicit fuel. -/
def findNextAux (xs : List (Option ℚ)) (k : ℕ) : ℕ → Option (ℕ × ℚ)
  | 0 => none
  | fuel + 1 =>
    match xs[k]? with
    | some (some v) => some (k, v)
    | _ => findNextAux xs (k + 1) fuel

/-- Index and value of the nearest known entry strictly after `i`. -/
def findNext (xs : List (Option ℚ)) (i : ℕ) : Option (ℕ × ℚ) :=
  findNextAux xs (i + 1) xs.length

/-- The value pandas `interpolate()` produces at position `i`, or `none`
when the position stays missing (a gap before the first known value). -/
def interpAt (xs : List (Option ℚ)) (i : ℕ) : Option ℚ :=
  match xs[i]? with
  | some (some v) => some v
  | _ =>
    match findPrev xs i, findNext xs i with
    | some (j, vj), some (k, vk) =>
        some (vj + (vk - vj) * (((i : ℚ) - (j : ℚ)) / ((k : ℚ) - (j : ℚ))))
    | some (_, vj), none => some vj
    | none, _ => none

/-- The cleaned `ETo` column: `interpolate().fillna(3.5)`. -/
def cleanETo (xs : List (Option ℚ)) : List ℚ :=
  (List.range xs.length).map (fun i => (interpAt xs i).getD (7 / 2))

/-- The cleaned `Rain` column: `fillna(0.0)`. -/
def cleanRain (xs : List (Option ℚ)) : List ℚ := xs.map (fun o => o.getD 0)

/-! ### Weather fetch with retry

`get_weather_data_safe` (`irrigation_app.py` lines 83-121): three
attempts; any `requests.exceptions.RequestException` — a timeout, a
connection error, or the `HTTPError` that `raise_for_status()` raises
for any status >= 400, 429 included — is caught, the loop sleeps
`2 ** attempt` seconds and retries; a response whose JSON lacks the
expected keys raises a `KeyError`, which is not caught and propagates;
after three failed attempts an empty DataFrame is returned. -/

/-- Outcome of one HTTP attempt, as the `try` body classifies it. -/
inductive FetchOutcome
  /-- Status < 400 and well-formed JSON: the raw daily columns. -/
  | ok (etos rains : List (Option ℚ))
  /-- A `RequestException`: `none` is a timeout or connection error,
  `some s` the `HTTPError` for status `s` >= 400 (429 included). -/
  | requestError (status : Option ℕ)
  /-- Status < 400 but JSON missing the expected keys (`KeyError`). -/
  | malformed

/-- What the fetch call does overall. -/
inductive FetchResult
  /-- An uncaught exception propagates out of the call. -/
  | raised
  /-- The call returns this DataFrame (list of cleaned (ETo, Rain) rows). -/
  | returned (df : List (ℚ × ℚ))
deriving DecidableEq

/-- The retry loop from attempt `i`, with `fuel` attempts left; also
returns the list of backoff delays slept, in order. -/
def fetchLoop (out : ℕ → FetchOutcome) (i : ℕ) : ℕ → FetchResult × List ℕ
  | 0 => (.returned [], [])
  | fuel + 1 =>
    match out i with
    | .ok etos rains => (.returned (List.zip (cleanETo etos) (cleanRain rains)), [])
    | .requestError _ =>
        let p := fetchLoop out (i + 1) fuel
        (p.1, 2 ^ i :: p.2)
    | .malformed => (.raised, [])

/-- `get_weather_data_safe`: three attempts starting at attempt 0. -/
def get_weather_data_safe (out : ℕ → FetchOutcome) : FetchResult × List ℕ :=
  fetchLoop out 0 3

/-! ### Reference-day summary

Run Irrigation Audit block, lines 142-196: `today = df.iloc[2]`;
`hrs = int(today['Pump_Hours'])`; `mins = int((today['Pump_Hours'] % 1) * 60)`;
status WATER STRESS when `today['Irrigation_Req'] > 0`, else ADEQUATE;
`int(total_liters.iloc[2])` liters.  The whole block runs inside a
blanket `except Exception` that reports a generic "Calculation Error". -/

/-- The status shown in the recommendation panel. -/
inductive Status
  | WATER_STRESS
  | ADEQUATE
deriving DecidableEq

/-- The ways the audit block can fall into its blanket `except` handler. -/
inductive CalcError
  /-- `df.iloc[2]` with fewer than 3 rows. -/
  | indexError
  /-- `int()` of a non-finite `Pump_Hours` value (`OverflowError` /
  `ValueError`), reported only as a generic "Calculation Error". -/
  | nonFiniteError
deriving DecidableEq

/-- The reference-day numbers the dashboard shows. -/
structure AuditSummary where
  rain : ℚ
  cropNeed : ℚ
  irrigationNeed : ℚ
  pumpHours : ℚ
  hrs : ℤ
  mins : ℤ
  status : Status
  litersToday : ℤ
deriving DecidableEq

/-- The audit block (the `try` body), applied to a non-empty DataFrame
of (ETo, Rain) rows. -/
def audit (df : List (ℚ × ℚ)) (kc fs pc : ℚ) : Except CalcError AuditSummary :=
  let etos := df.map Prod.fst
  let rains := df.map Prod.snd
  let crop := cropWaterNeed kc etos
  let irr := irrigationReq crop rains
  let liters := totalLiters fs irr
  let pump := pumpHoursCol pc liters
  match df[2]?, crop[2]?, irr[2]?, liters[2]?, pump[2]? with
  | some day, some c2, some i2, some l2, some ph? =>
    match ph? with
    | some ph =>
        .ok { rain := day.2, cropNeed := c2, irrigationNeed := i2,
              pumpHours := ph,
              hrs := pyInt ph,
              mins := pyInt (pyMod1 ph * 60),
              status := if 0 < i2 then .WATER_STRESS else .ADEQUATE,
              litersToday := pyInt l2 }
    | none => .error .nonFiniteError
  | _, _, _, _, _ => .error .indexError

/-- The button-press block: fetch, then audit only when the DataFrame is
non-empty (`if not df.empty:`); an uncaught fetch exception aborts the
script run before any audit. -/
def runAudit (out : ℕ → FetchOutcome) (kc fs pc : ℚ) :
    Option (Except CalcError AuditSummary) :=
  match get_weather_data_safe out with
  | (.raised, _) => none
  | (.returned df, _) => if df.isEmpty then none else some (audit df kc fs pc)

/-! ### Helper lemmas -/

/-- `int()` of a float holding an integer value is that integer. -/
theorem pyInt_intCast (n : ℤ) : pyInt (n : ℚ) = n := by
  unfold pyInt
  split <;> simp

/-- On a non-negative float, `int()` truncation agrees with the floor. -/
theorem pyInt_eq_floor {x : ℚ} (h : 0 ≤ x) : pyInt x = ⌊x⌋ := by
  simp [pyInt, h]

/-- Entry of a `zipWith` column from the entries of its two inputs. -/
theorem getElem?_zipWith_some {f : ℚ → ℚ → ℚ} {as bs : List ℚ} {i : ℕ} {a b : ℚ}
    (ha : as[i]? = some a) (hb : bs[i]? = some b) :
    (List.zipWith f as bs)[i]? = some (f a b) := by
  simp [List.getElem?_zipWith, ha, hb]

/-- C1: for every day of the weather series, the audit block computes
exactly `crop_need = eto * kc`, `irrigation_need = max(0, crop_need - rain)`
(hence non-negative), `volume_liters = irrigation_need * 4046.86 *
field_size`, and, the pump capacity being the positive integer the
sidebar widget supplies, `pump_hours = volume_liters / (pump_capacity * 60)`. -/
theorem C1_water_balance_formulas (etos rains : List ℚ) (kc fs : ℚ) (pc : ℤ)
    (hpc : 0 < pc) (i : ℕ) (eto rain : ℚ)
    (he : etos[i]? = some eto) (hr : rains[i]? = some rain) :
    (cropWaterNeed kc etos)[i]? = some (eto * kc) ∧
    (irrigationReq (cropWaterNeed kc etos) rains)[i]? = some (max 0 (eto * kc - rain)) ∧
    (0:ℚ) ≤ max 0 (eto * kc - rain) ∧
    (totalLiters fs (irrigationReq (cropWaterNeed kc etos) rains))[i]? =
      some (max 0 (eto * kc - rain) * (404686 / 100) * fs) ∧
    (pumpHoursCol (pc : ℚ) (totalLiters fs (irrigationReq (cropWaterNeed kc etos) rains)))[i]? =
      some (some (max 0 (eto * kc - rain) * (404686 / 100) * fs / ((pc : ℚ) * 60))) := by
  have hcrop : (cropWaterNeed kc etos)[i]? = some (eto * kc) := by
    simp [cropWaterNeed, List.getElem?_map, he, dayCropNeed]
  have hirr : (irrigationReq (cropWaterNeed kc etos) rains)[i]? =
      some (max 0 (eto * kc - rain)) := by
    rw [irrigationReq, getElem?_zipWith_some hcrop hr, dayIrrigation]
  have hlit : (totalLiters fs (irrigationReq (cropWaterNeed kc etos) rains))[i]? =
      some (max 0 (eto * kc - rain) * (404686 / 100) * fs) := by
    simp [totalLiters, List.getElem?_map, hirr, dayLiters]
  have hq : (0:ℚ) < (pc : ℚ) := by exact_mod_cast hpc
  have hd : ((pc : ℚ) * 60) ≠ 0 := ne_of_gt (by linarith)
  have hpump : (pumpHoursCol (pc : ℚ)
      (totalLiters fs (irrigationReq (cropWaterNeed kc etos) rains)))[i]? =
      some (some (max 0 (eto * kc - rain) * (404686 / 100) * fs / ((pc : ℚ) * 60))) := by
    simp [pumpHoursCol, List.getElem?_map, hlit, pandasDiv, pyInt_intCast, hd]
  exact ⟨hcrop, hirr, le_max_left 0 _, hlit, hpump⟩

/-- C1 witness: scenario A (`eto=5, kc=1.1, rain=2`) with one acre and a
200 L/min pump. -/
theorem C1_witness :
    (cropWaterNeed (11 / 10) [5])[0]? = some (5 * (11 / 10)) ∧
    (irrigationReq (cropWaterNeed (11 / 10) [5]) [2])[0]? =
      some (max 0 (5 * (11 / 10) - 2)) ∧
    (0:ℚ) ≤ max 0 (5 * (11 / 10) - 2) ∧
    (totalLiters 1 (irrigationReq (cropWaterNeed (11 / 10) [5]) [2]))[0]? =
      some (max 0 (5 * (11 / 10) - 2) * (404686 / 100) * 1) ∧
    (pumpHoursCol ((200 : ℤ) : ℚ)
        (totalLiters 1 (irrigationReq (cropWaterNeed (11 / 10) [5]) [2])))[0]? =
      some (some (max 0 (5 * (11 / 10) - 2) * (404686 / 100) * 1 / (((200 : ℤ) : ℚ) * 60))) :=
  C1_water_balance_formulas [5] [2] (11 / 10) 1 200 (by norm_num) 0 5 2 rfl rfl

/-- C3: the recommendation panel reports WATER_STRESS exactly when the
reference day's `Irrigation_Req` is strictly positive, and ADEQUATE
otherwise. -/
theorem C3_status_rule (df : List (ℚ × ℚ)) (kc fs pc : ℚ) (s : AuditSummary)
    (h : audit df kc fs pc = .ok s) :
    (s.status = .WATER_STRESS ↔ 0 < s.irrigationNeed) ∧
    (s.status = .ADEQUATE ↔ ¬ 0 < s.irrigationNeed) := by
  unfold audit at h
  simp only [] at h
  split at h
  · split at h
    · injection h with h'
      rw [← h']
      dsimp only
      split <;> simp_all
    · cases h
  · cases h

/-- C3 witness: scenario B (`eto=3, kc=0.8, rain=10`) gives
`irrigation_need = 0` and status ADEQUATE. -/
theorem C3_witness :
    ((AuditSummary.mk 10 (12 / 5) 0 0 0 0 .ADEQUATE 0).status = .WATER_STRESS ↔
      0 < (AuditSummary.mk 10 (12 / 5) 0 0 0 0 .ADEQUATE 0).irrigationNeed) ∧
    ((AuditSummary.mk 10 (12 / 5) 0 0 0 0 .ADEQUATE 0).status = .ADEQUATE ↔
      ¬ 0 < (AuditSummary.mk 10 (12 / 5) 0 0 0 0 .ADEQUATE 0).irrigationNeed) :=
  C3_status_rule [(3, 10), (3, 10), (3, 10)] (8 / 10) 1 200
    (AuditSummary.mk 10 (12 / 5) 0 0 0 0 .ADEQUATE 0)
    (by norm_num [audit, cropWaterNeed, irrigationReq, totalLiters, pumpHoursCol,
      dayCropNeed, dayIrrigation, dayLiters, pandasDiv, pyInt, pyMod1, max_def])

/-- C2 counterexample: in scenario C (`irrigation_need = 3.5`, one acre,
200 L/min) the code reports 1 h 10 m — `int()` truncates the 10.82
minutes — while rounding to the nearest minute, as the claim states,
would give 11. -/
theorem C2_counterexample :
    audit [(7 / 2, 0), (7 / 2, 0), (7 / 2, 0)] 1 1 200 =
      .ok ⟨0, 7 / 2, 7 / 2, 1416401 / 1200000, 1, 10, .WATER_STRESS, 14164⟩ ∧
    round ((1416401 / 1200000 - (1:ℚ)) * 60) = 11 := by
  constructor
  · norm_num [audit, cropWaterNeed, irrigationReq, totalLiters, pumpHoursCol,
      dayCropNeed, dayIrrigation, dayLiters, pandasDiv, pyInt, pyMod1, max_def]
  · norm_num [round_eq]

/-- C2 (amended): the pump runtime is split as `hours = int(pump_hours)`
and `minutes = int((pump_hours % 1) * 60)` — both truncations, which on a
non-negative `pump_hours` equal floors, so the minutes are rounded DOWN,
not to the nearest integer; scenario C is reported as 1 h 10 m. -/
theorem C2_pump_time_split (df : List (ℚ × ℚ)) (kc fs pc : ℚ) (s : AuditSummary)
    (h : audit df kc fs pc = .ok s) (hph : 0 ≤ s.pumpHours) :
    s.hrs = ⌊s.pumpHours⌋ ∧ s.mins = ⌊(s.pumpHours - ⌊s.pumpHours⌋) * 60⌋ := by
  unfold audit at h
  simp only [] at h
  split at h
  · split at h
    · injection h with h'
      rw [← h'] at hph ⊢
      dsimp only at hph ⊢
      refine ⟨pyInt_eq_floor hph, ?_⟩
      rw [pyMod1]
      exact pyInt_eq_floor
        (mul_nonneg (sub_nonneg.mpr (Int.floor_le _)) (by norm_num))
    · cases h
  · cases h

/-- C2 witness: the amended split applied to scenario C. -/
theorem C2_witness :
    (AuditSummary.mk 0 (7 / 2) (7 / 2) (1416401 / 1200000) 1 10 .WATER_STRESS 14164).hrs =
      ⌊(AuditSummary.mk 0 (7 / 2) (7 / 2) (1416401 / 1200000) 1 10
          .WATER_STRESS 14164).pumpHours⌋ ∧
    (AuditSummary.mk 0 (7 / 2) (7 / 2) (1416401 / 1200000) 1 10 .WATER_STRESS 14164).mins =
      ⌊((AuditSummary.mk 0 (7 / 2) (7 / 2) (1416401 / 1200000) 1 10
          .WATER_STRESS 14164).pumpHours -
        ⌊(AuditSummary.mk 0 (7 / 2) (7 / 2) (1416401 / 1200000) 1 10
            .WATER_STRESS 14164).pumpHours⌋) * 60⌋ :=
  C2_pump_time_split [(7 / 2, 0), (7 / 2, 0), (7 / 2, 0)] 1 1 200
    (AuditSummary.mk 0 (7 / 2) (7 / 2) (1416401 / 1200000) 1 10 .WATER_STRESS 14164)
    (by norm_num [audit, cropWaterNeed, irrigationReq, totalLiters, pumpHoursCol,
      dayCropNeed, dayIrrigation, dayLiters, pandasDiv, pyInt, pyMod1, max_def])
    (by norm_num)

/-- C8: with pump capacity 0 the divisor `int(pump_capacity) * 60` is 0;
the pandas division silently fills `Pump_Hours` with non-finite values
(no exception, no `InvalidConfigError` — that name exists nowhere in the
code), and the audit then dies at `int(today['Pump_Hours'])`, caught by
the blanket handler as a generic "Calculation Error". -/
theorem C8_zero_capacity_silent :
    pumpHoursCol 0 (totalLiters 1 (irrigationReq (cropWaterNeed (11 / 10) [5, 5, 5])
      [2, 2, 2])) = [none, none, none] ∧
    audit [(5, 2), (5, 2), (5, 2)] (11 / 10) 1 0 = .error .nonFiniteError := by
  constructor
  · norm_num [cropWaterNeed, irrigationReq, totalLiters, pumpHoursCol,
      dayCropNeed, dayIrrigation, dayLiters, pandasDiv, pyInt, max_def]
  · norm_num [audit, cropWaterNeed, irrigationReq, totalLiters, pumpHoursCol,
      dayCropNeed, dayIrrigation, dayLiters, pandasDiv, pyInt, pyMod1, max_def]

/-- Three failed attempts exhaust the loop: the call sleeps 1 s, 2 s and
4 s and then returns an empty DataFrame. -/
theorem fetch_exhausts (out : ℕ → FetchOutcome)
    (h : ∀ i, i < 3 → ∃ s, out i = .requestError s) :
    get_weather_data_safe out = (.returned [], [1, 2, 4]) := by
  obtain ⟨s0, h0⟩ := h 0 (by norm_num)
  obtain ⟨s1, h1⟩ := h 1 (by norm_num)
  obtain ⟨s2, h2⟩ := h 2 (by norm_num)
  norm_num [get_weather_data_safe, fetchLoop, h0, h1, h2]

/-- C4: a transient failure (any `RequestException`) is retried up to 3
attempts with backoff delay `2 ** attempt` seconds — 1 s, 2 s, 4 s when
all fail — and a fetch failing twice then succeeding on the third
attempt returns the successful (cleaned) result after exactly the two
delays 1 s and 2 s. -/
theorem C4_retry_with_backoff (out : ℕ → FetchOutcome) :
    ((∀ i, i < 3 → ∃ s, out i = .requestError s) →
      get_weather_data_safe out = (.returned [], [1, 2, 4])) ∧
    (∀ etos rains, (∃ s, out 0 = .requestError s) → (∃ s, out 1 = .requestError s) →
      out 2 = .ok etos rains →
      get_weather_data_safe out =
        (.returned (List.zip (cleanETo etos) (cleanRain rains)), [1, 2])) := by
  constructor
  · exact fetch_exhausts out
  · rintro etos rains ⟨s0, h0⟩ ⟨s1, h1⟩ h2
    norm_num [get_weather_data_safe, fetchLoop, h0, h1, h2]

/-- C4 witness: two 429 failures then a success; and three network
failures. -/
theorem C4_witness :
    get_weather_data_safe (fun i => if i < 2 then .requestError (some 429)
        else .ok [some 5] [some 2]) =
      (.returned (List.zip (cleanETo [some 5]) (cleanRain [some 2])), [1, 2]) ∧
    get_weather_data_safe (fun _ => .requestError none) = (.returned [], [1, 2, 4]) :=
  ⟨(C4_retry_with_backoff _).2 [some 5] [some 2] ⟨some 429, rfl⟩ ⟨some 429, rfl⟩ rfl,
   (C4_retry_with_backoff _).1 (fun _ _ => ⟨none, rfl⟩)⟩

/-- C5 counterexample: an HTTP 404 — a 4xx that is not a rate-limit
signal — does NOT fail immediately: the loop sleeps 1 s and retries, and
a success on the second attempt is returned. -/
theorem C5_counterexample :
    get_weather_data_safe (fun i => if i = 0 then .requestError (some 404)
        else .ok [some 5] [some 0]) =
      (.returned (List.zip (cleanETo [some 5]) (cleanRain [some 0])), [1]) ∧
    (FetchResult.returned (List.zip (cleanETo [some 5]) (cleanRain [some 0])), [1]) ≠
      ((FetchResult.raised : FetchResult), ([] : List ℕ)) := by
  constructor
  · norm_num [get_weather_data_safe, fetchLoop]
  · simp

/-- C5 (amended): a malformed response (missing JSON keys) raises an
uncaught `KeyError` and so fails immediately with no retry and no delay;
but an HTTP 4xx other than 429 is a `RequestException` like any other
and is retried with backoff rather than failing immediately. -/
theorem C5_malformed_immediate (out : ℕ → FetchOutcome) :
    (out 0 = .malformed → get_weather_data_safe out = (.raised, [])) ∧
    (∀ etos rains, out 0 = .requestError (some 404) → out 1 = .ok etos rains →
      get_weather_data_safe out =
        (.returned (List.zip (cleanETo etos) (cleanRain rains)), [1])) := by
  constructor
  · intro h0
    simp [get_weather_data_safe, fetchLoop, h0]
  · intro etos rains h0 h1
    norm_num [get_weather_data_safe, fetchLoop, h0, h1]

/-- C5 witness: a malformed first response; and a 404 followed by a
success. -/
theorem C5_witness :
    get_weather_data_safe (fun _ => .malformed) = (.raised, []) ∧
    get_weather_data_safe (fun i => if i = 0 then .requestError (some 404)
        else .ok [some 3] [some 1]) =
      (.returned (List.zip (cleanETo [some 3]) (cleanRain [some 1])), [1]) :=
  ⟨(C5_malformed_immediate _).1 rfl,
   (C5_malformed_immediate _).2 [some 3] [some 1] rfl rfl⟩

/-- C6: when all 3 attempts fail the fetch returns an explicit empty
DataFrame instead of raising, and the main block's `if not df.empty:`
guard then suppresses everything downstream: no balance columns, no
status, no reference-day summary. -/
theorem C6_exhaustion_suppresses (out : ℕ → FetchOutcome) (kc fs pc : ℚ)
    (h : ∀ i, i < 3 → ∃ s, out i = .requestError s) :
    get_weather_data_safe out = (.returned [], [1, 2, 4]) ∧
    runAudit out kc fs pc = none := by
  have hf := fetch_exhausts out h
  refine ⟨hf, ?_⟩
  simp [runAudit, hf]

/-- C6 witness: three HTTP 500 failures. -/
theorem C6_witness :
    get_weather_data_safe (fun _ => .requestError (some 500)) =
      (.returned [], [1, 2, 4]) ∧
    runAudit (fun _ => .requestError (some 500)) 1 1 200 = none :=
  C6_exhaustion_suppresses _ 1 1 200 (fun _ _ => ⟨some 500, rfl⟩)

/-- C9: line 139 divides by `int(pump_capacity) * 60`: the capacity is
truncated toward zero first, so any two capacities with the same `int()`
value (for example 200.1 and 200.9 L/min) produce an identical
`Pump_Hours` column, and 12000 liters with capacity 200.9 L/min gives
exactly 1 hour (divisor `int(200.9) * 60 = 12000`), which dividing by
`200.9 * 60` would not. -/
theorem C9_capacity_truncation :
    (∀ (liters : List ℚ) (c₁ c₂ : ℚ), pyInt c₁ = pyInt c₂ →
      pumpHoursCol c₁ liters = pumpHoursCol c₂ liters) ∧
    pumpHoursCol (2009 / 10) [12000] = [some 1] ∧
    (12000 / ((2009 / 10 : ℚ) * 60) ≠ (1 : ℚ)) := by
  refine ⟨fun liters c₁ c₂ h => by simp [pumpHoursCol, h], ?_, ?_⟩
  · norm_num [pumpHoursCol, pandasDiv, pyInt]
  · norm_num

/-- C9 witness: capacities 200.1 and 200.9 L/min truncate alike and give
the same pump-hours column. -/
theorem C9_witness :
    pyInt (2001 / 10) = pyInt (2009 / 10) ∧
    pumpHoursCol (2001 / 10) [1416401 / 100] =
      pumpHoursCol (2009 / 10) [1416401 / 100] := by
  have h : pyInt (2001 / 10 : ℚ) = pyInt (2009 / 10 : ℚ) := by norm_num [pyInt]
  exact ⟨h, C9_capacity_truncation.1 [1416401 / 100] _ _ h⟩

/-- C10: with `eto >= 0`, any fixed rain, field size `>= 0` and an
integer pump capacity `> 0` (as the sidebar supplies), the day's
`Irrigation_Req` and `Pump_Hours` are monotonically non-decreasing in
`kc` over `kc >= 0`, and, for fixed `kc >= 0`, non-decreasing in `eto`;
the divisor the code uses, `int(pump_capacity) * 60`, equals
`pump_capacity * 60` here. -/
theorem C10_monotonicity (rain fs : ℚ) (pc : ℤ) (hfs : 0 ≤ fs) (hpc : 0 < pc) :
    (∀ x : ℚ, pandasDiv x ((pyInt (pc : ℚ) : ℚ) * 60) = some (x / ((pc : ℚ) * 60))) ∧
    (∀ eto kc₁ kc₂ : ℚ, 0 ≤ eto → 0 ≤ kc₁ → kc₁ ≤ kc₂ →
      dayIrrigation (dayCropNeed kc₁ eto) rain ≤ dayIrrigation (dayCropNeed kc₂ eto) rain ∧
      dayLiters fs (dayIrrigation (dayCropNeed kc₁ eto) rain) / ((pc : ℚ) * 60) ≤
        dayLiters fs (dayIrrigation (dayCropNeed kc₂ eto) rain) / ((pc : ℚ) * 60)) ∧
    (∀ kc eto₁ eto₂ : ℚ, 0 ≤ kc → 0 ≤ eto₁ → eto₁ ≤ eto₂ →
      dayIrrigation (dayCropNeed kc eto₁) rain ≤ dayIrrigation (dayCropNeed kc eto₂) rain ∧
      dayLiters fs (dayIrrigation (dayCropNeed kc eto₁) rain) / ((pc : ℚ) * 60) ≤
        dayLiters fs (dayIrrigation (dayCropNeed kc eto₂) rain) / ((pc : ℚ) * 60)) := by
  have hq : (0:ℚ) < (pc : ℚ) := by exact_mod_cast hpc
  have hd : (0:ℚ) < (pc : ℚ) * 60 := by linarith
  have hdivmono : ∀ a b : ℚ, a ≤ b → a / ((pc : ℚ) * 60) ≤ b / ((pc : ℚ) * 60) := by
    intro a b hab
    rw [div_eq_mul_inv, div_eq_mul_inv]
    exact mul_le_mul_of_nonneg_right hab (inv_nonneg.mpr hd.le)
  have hlit : ∀ a b : ℚ, a ≤ b → dayLiters fs a ≤ dayLiters fs b := by
    intro a b hab
    unfold dayLiters
    exact mul_le_mul_of_nonneg_right
      (mul_le_mul_of_nonneg_right hab (by norm_num)) hfs
  have hirrmono : ∀ c₁ c₂ : ℚ, c₁ ≤ c₂ → dayIrrigation c₁ rain ≤ dayIrrigation c₂ rain := by
    intro c₁ c₂ hc
    unfold dayIrrigation
    exact max_le_max le_rfl (sub_le_sub_right hc rain)
  refine ⟨?_, ?_, ?_⟩
  · intro x
    simp [pandasDiv, pyInt_intCast, hd.ne']
  · intro eto kc₁ kc₂ he hk1 hk
    have hcrop : dayCropNeed kc₁ eto ≤ dayCropNeed kc₂ eto := by
      unfold dayCropNeed
      exact mul_le_mul_of_nonneg_left hk he
    have h1 := hirrmono _ _ hcrop
    exact ⟨h1, hdivmono _ _ (hlit _ _ h1)⟩
  · intro kc eto₁ eto₂ hk he1 he
    have hcrop : dayCropNeed kc eto₁ ≤ dayCropNeed kc eto₂ := by
      unfold dayCropNeed
      exact mul_le_mul_of_nonneg_right he hk
    have h1 := hirrmono _ _ hcrop
    exact ⟨h1, hdivmono _ _ (hlit _ _ h1)⟩

/-- C10 witness: rain 2 mm, one acre, 200 L/min; `kc` 1 vs 1.1 at
`eto = 5`, and `eto` 4 vs 5 at `kc = 1`. -/
theorem C10_witness :
    (dayIrrigation (dayCropNeed 1 5) 2 ≤ dayIrrigation (dayCropNeed (11 / 10) 5) 2 ∧
      dayLiters 1 (dayIrrigation (dayCropNeed 1 5) 2) / (((200 : ℤ) : ℚ) * 60) ≤
        dayLiters 1 (dayIrrigation (dayCropNeed (11 / 10) 5) 2) / (((200 : ℤ) : ℚ) * 60)) ∧
    (dayIrrigation (dayCropNeed 1 4) 2 ≤ dayIrrigation (dayCropNeed 1 5) 2 ∧
      dayLiters 1 (dayIrrigation (dayCropNeed 1 4) 2) / (((200 : ℤ) : ℚ) * 60) ≤
        dayLiters 1 (dayIrrigation (dayCropNeed 1 5) 2) / (((200 : ℤ) : ℚ) * 60)) :=
  ⟨(C10_monotonicity 2 1 200 (by norm_num) (by norm_num)).2.1 5 1 (11 / 10)
      (by norm_num) (by norm_num) (by norm_num),
   (C10_monotonicity 2 1 200 (by norm_num) (by norm_num)).2.2 1 4 5
      (by norm_num) (by norm_num) (by norm_num)⟩

/-- What `findPrev` finds lies strictly before `i` and is a known entry. -/
theorem findPrev_spec (xs : List (Option ℚ)) :
    ∀ i j v, findPrev xs i = some (j, v) → j < i ∧ xs[j]? = some (some v) := by
  intro i
  induction i with
  | zero => intro j v h; simp [findPrev] at h
  | succ n ih =>
    intro j v h
    simp only [findPrev] at h
    split at h
    · rename_i v₁ heq
      injection h with h2
      cases h2
      exact ⟨Nat.lt_succ_self n, heq⟩
    · obtain ⟨h1, h2⟩ := ih j v h
      exact ⟨Nat.lt_succ_of_lt h1, h2⟩

/-- What `findNextAux` finds lies at or after `k` and is a known entry. -/
theorem findNextAux_spec (xs : List (Option ℚ)) :
    ∀ fuel k j v, findNextAux xs k fuel = some (j, v) → k ≤ j ∧ xs[j]? = some (some v) := by
  intro fuel
  induction fuel with
  | zero => intro k j v h; simp [findNextAux] at h
  | succ n ih =>
    intro k j v h
    simp only [findNextAux] at h
    split at h
    · rename_i v₁ heq
      injection h with h2
      cases h2
      exact ⟨le_refl _, heq⟩
    · obtain ⟨h1, h2⟩ := ih (k + 1) j v h
      exact ⟨Nat.le_of_succ_le h1, h2⟩

/-- What `findNext` finds lies strictly after `i` and is a known entry. -/
theorem findNext_spec (xs : List (Option ℚ)) (i j : ℕ) (v : ℚ)
    (h : findNext xs i = some (j, v)) : i < j ∧ xs[j]? = some (some v) := by
  obtain ⟨h1, h2⟩ := findNextAux_spec xs xs.length (i + 1) j v h
  exact ⟨Nat.lt_of_succ_le h1, h2⟩

/-- Interpolation never leaves the known values' range on the low side:
when every known entry is non-negative, so is every interpolated one. -/
theorem interpAt_nonneg (xs : List (Option ℚ))
    (hx : ∀ v : ℚ, some v ∈ xs → 0 ≤ v) :
    ∀ i v, interpAt xs i = some v → 0 ≤ v := by
  have hmem : ∀ (j : ℕ) (w : ℚ), xs[j]? = some (some w) → 0 ≤ w := by
    intro j w hj
    obtain ⟨hlt, heq⟩ := List.getElem?_eq_some.mp hj
    exact hx w (heq ▸ List.getElem_mem hlt)
  intro i v h
  unfold interpAt at h
  split at h
  · rename_i v₁ heq
    injection h with h2
    cases h2
    exact hmem i v heq
  · split at h
    · rename_i j vj k vk hp hn
      injection h with h2
      obtain ⟨hji, hxj⟩ := findPrev_spec xs i j vj hp
      obtain ⟨hik, hxk⟩ := findNext_spec xs i k vk hn
      have hvj := hmem _ _ hxj
      have hvk := hmem _ _ hxk
      have hjk : j < k := lt_trans hji hik
      have hden : (0:ℚ) < (k:ℚ) - (j:ℚ) := by
        have : (j:ℚ) < (k:ℚ) := by exact_mod_cast hjk
        linarith
      have hnum0 : (0:ℚ) ≤ (i:ℚ) - (j:ℚ) := by
        have : (j:ℚ) ≤ (i:ℚ) := by exact_mod_cast hji.le
        linarith
      have hnum1 : (i:ℚ) - (j:ℚ) ≤ (k:ℚ) - (j:ℚ) := by
        have : (i:ℚ) ≤ (k:ℚ) := by exact_mod_cast hik.le
        linarith
      have ht0 : 0 ≤ ((i:ℚ) - (j:ℚ)) / ((k:ℚ) - (j:ℚ)) := div_nonneg hnum0 hden.le
      have ht1 : ((i:ℚ) - (j:ℚ)) / ((k:ℚ) - (j:ℚ)) ≤ 1 := (div_le_one hden).mpr hnum1
      have hsplit : vj + (vk - vj) * (((i:ℚ) - (j:ℚ)) / ((k:ℚ) - (j:ℚ))) =
          vj * (1 - (((i:ℚ) - (j:ℚ)) / ((k:ℚ) - (j:ℚ)))) +
            vk * (((i:ℚ) - (j:ℚ)) / ((k:ℚ) - (j:ℚ))) := by ring
      rw [← h2, hsplit]
      exact add_nonneg (mul_nonneg hvj (by linarith)) (mul_nonneg hvk ht0)
    · rename_i j vj hp hn
      injection h with h2
      obtain ⟨-, hxj⟩ := findPrev_spec xs i j vj hp
      rw [← h2]
      exact hmem _ _ hxj
    · cases h

/-- The cleaned ETo column entry is the interpolated value with the 3.5
default for what stays missing. -/
theorem cleanETo_getElem? (xs : List (Option ℚ)) (i : ℕ) (h : i < xs.length) :
    (cleanETo xs)[i]? = some ((interpAt xs i).getD (7 / 2)) := by
  simp [cleanETo, List.getElem?_map, List.getElem?_range, h]

/-- C7 (amended): after cleaning, every interior evapotranspiration gap
is linearly interpolated between its adjacent known values, a gap with
no preceding known value becomes the 3.5 constant, a gap after the last
known value takes that last known value (not 3.5), precipitation gaps
become 0, known values are kept, no missing sentinel remains — and,
provided every raw value present is non-negative, every cleaned entry
satisfies `eto_mm >= 0` and `rain_mm >= 0`. -/
theorem C7_cleaning (xs ys : List (Option ℚ))
    (hx : ∀ v : ℚ, some v ∈ xs → 0 ≤ v)
    (hy : ∀ v : ℚ, some v ∈ ys → 0 ≤ v) :
    (cleanETo xs).length = xs.length ∧
    (cleanRain ys).length = ys.length ∧
    (∀ y ∈ cleanETo xs, 0 ≤ y) ∧
    (∀ r ∈ cleanRain ys, 0 ≤ r) ∧
    (∀ (i : ℕ) (v : ℚ), xs[i]? = some (some v) → (cleanETo xs)[i]? = some v) ∧
    (∀ (i : ℕ) (v : ℚ), ys[i]? = some (some v) → (cleanRain ys)[i]? = some v) ∧
    (∀ (i j k : ℕ) (vj vk : ℚ), xs[i]? = some none →
      findPrev xs i = some (j, vj) → findNext xs i = some (k, vk) →
      (cleanETo xs)[i]? =
        some (vj + (vk - vj) * (((i : ℚ) - (j : ℚ)) / ((k : ℚ) - (j : ℚ))))) ∧
    (∀ (i j : ℕ) (vj : ℚ), xs[i]? = some none →
      findPrev xs i = some (j, vj) → findNext xs i = none →
      (cleanETo xs)[i]? = some vj) ∧
    (∀ i : ℕ, xs[i]? = some none → findPrev xs i = none →
      (cleanETo xs)[i]? = some (7 / 2)) ∧
    (∀ i : ℕ, ys[i]? = some none → (cleanRain ys)[i]? = some 0) := by
  refine ⟨by simp [cleanETo], by simp [cleanRain], ?_, ?_, ?_, ?_, ?_, ?_, ?_, ?_⟩
  · intro y hmem
    obtain ⟨i, hi, rfl⟩ := List.mem_map.mp hmem
    rcases h' : interpAt xs i with _ | v
    · simp [h']
      norm_num
    · simp [h']
      exact interpAt_nonneg xs hx i v h'
  · intro r hmem
    obtain ⟨o, ho, rfl⟩ := List.mem_map.mp hmem
    rcases o with _ | v
    · simp
    · simpa using hy v ho
  · intro i v h
    have hlt := (List.getElem?_eq_some.mp h).1
    have hint : interpAt xs i = some v := by simp [interpAt, h]
    rw [cleanETo_getElem? xs i hlt, hint]
    rfl
  · intro i v h
    simp [cleanRain, List.getElem?_map, h]
  · intro i j k vj vk h hp hn
    have hlt := (List.getElem?_eq_some.mp h).1
    have hint : interpAt xs i =
        some (vj + (vk - vj) * (((i : ℚ) - (j : ℚ)) / ((k : ℚ) - (j : ℚ)))) := by
      simp [interpAt, h, hp, hn]
    rw [cleanETo_getElem? xs i hlt, hint]
    rfl
  · intro i j vj h hp hn
    have hlt := (List.getElem?_eq_some.mp h).1
    have hint : interpAt xs i = some vj := by
      simp [interpAt, h, hp, hn]
    rw [cleanETo_getElem? xs i hlt, hint]
    rfl
  · intro i h hp
    have hlt := (List.getElem?_eq_some.mp h).1
    have hint : interpAt xs i = none := by
      simp [interpAt, h, hp]
    rw [cleanETo_getElem? xs i hlt, hint]
    rfl
  · intro i h
    simp [cleanRain, List.getElem?_map, h]

/-- C7 witness: raw ETo `[1, gap, 3, gap]` and raw rain `[gap, 2]`, all
present values non-negative. -/
theorem C7_witness :
    (cleanETo [some 1, none, some 3, none]).length = 4 ∧
    (cleanRain [none, some 2]).length = 2 ∧
    (∀ y ∈ cleanETo [some 1, none, some 3, none], 0 ≤ y) ∧
    (∀ r ∈ cleanRain [none, some 2], 0 ≤ r) := by
  have h := C7_cleaning [some 1, none, some 3, none] [none, some 2]
    (by
      intro v hv
      simp only [List.mem_cons, List.not_mem_nil, or_false,
        Option.some.injEq, reduceCtorEq, false_or] at hv
      rcases hv with rfl | rfl <;> norm_num)
    (by
      intro v hv
      simp only [List.mem_cons, List.not_mem_nil, or_false,
        Option.some.injEq, reduceCtorEq, false_or] at hv
      subst hv
      norm_num)
  exact ⟨h.1, h.2.1, h.2.2.1, h.2.2.2.1⟩

/-- C7 counterexample: a negative raw value (-1 mm) survives cleaning,
so `eto_mm >= 0` does not hold after cleaning; a trailing gap after a
known 5 is filled with 5 — the last known value — not interpolated
between two known values and not set to the 3.5 constant; a negative
raw precipitation value (-2 mm) likewise survives `fillna(0)`. -/
theorem C7_counterexample :
    cleanETo [some (-1), none] = [-1, -1] ∧
    ¬ (0 ≤ (-1 : ℚ)) ∧
    cleanETo [some 5, none] = [5, 5] ∧
    cleanRain [some (-2)] = [-2] := by
  refine ⟨?_, by norm_num, ?_, ?_⟩
  · norm_num [cleanETo, interpAt, findPrev, findNext, findNextAux, List.range_succ]
  · norm_num [cleanETo, interpAt, findPrev, findNext, findNextAux, List.range_succ]
  · norm_num [cleanRain]
